import Mathlib

/-!
# Verification of the remit backend's agent-spending core

Shallow embedding of the agent budget ledger (`agentPolicyService.ts`),
the Pretium funding-confirmation webhook (`pretiumWebhook.ts`), the
idempotency gate (`redis.ts`) and the x402 agent spend route
(`agentMerchantRoutes`), with theorems checking the specification's
testable properties against the code.

Modelling conventions:
* Monetary amounts are integer minor currency units (`Int`), matching the
  source's `*_usd_cents` columns and integer JavaScript arithmetic.
* Calendar days are abstracted to a day index (`Nat`).  The source decides
  "new day" by comparing `Date.toDateString()` values for inequality; here
  that is inequality of day indices.
* A SQL transaction that rolls back is modelled by returning the input
  state unchanged; a committed transaction returns the updated state.
* Database rows irrelevant to the verified properties (timestamps, raw
  payload blobs, encrypted phone numbers, memo text) are elided.
-/

/-! ## Budget ledger: `agentPolicyService.ts` -/

/-- Authorization status, from the `status` column of `agent_authorizations`. -/
inductive AuthStatus where
  | active
  | paused
  | revoked
  | expired
  deriving DecidableEq

/-- The mutable part of one `agent_authorizations` row, as read and written
by `deductBudget` / `refundBudget`.  `lastUpdatedDay` is the calendar day of
the row's `updated_at` timestamp. -/
structure AuthState where
  maxDailyUsdCents : Int
  spentTodayUsdCents : Int
  status : AuthStatus
  lastUpdatedDay : Nat
  deriving DecidableEq

/-- Which failure branch of `deductBudget` / `refundBudget` produced the
`reason` string.  `statusNot st` stands for the string
"Authorization status is (st)". -/
inductive FailReason where
  | notFound
  | statusNot (st : AuthStatus)
  | budgetExceeded
  deriving DecidableEq

/-- The `DeductBudgetResult` interface of `agentPolicyService.ts`. -/
structure DeductBudgetResult where
  success : Bool
  newSpentAmount : Int
  remainingBudget : Int
  reason : Option FailReason
  deriving DecidableEq

/-- One `deductBudget` call on an existing, row-locked authorization,
transcribed from `agentPolicyService.ts` lines 144-228: status check,
daily reset (`isNewDay` when the `updated_at` day differs from today),
budget-cap check, then persist `spent_today_usd_cents := newSpent` and
`updated_at := NOW()`.  A failing branch rolls back, leaving the row as it
was. -/
def deductBudgetStep (today : Nat) (s : AuthState) (amountUsdCents : Int) :
    DeductBudgetResult × AuthState :=
  if s.status ≠ .active then
    (⟨false, 0, 0, some (.statusNot s.status)⟩, s)
  else
    let currentSpent := if s.lastUpdatedDay ≠ today then 0 else s.spentTodayUsdCents
    let newSpent := currentSpent + amountUsdCents
    if s.maxDailyUsdCents < newSpent then
      (⟨false, currentSpent, s.maxDailyUsdCents - currentSpent, some .budgetExceeded⟩, s)
    else
      (⟨true, newSpent, s.maxDailyUsdCents - newSpent, none⟩,
       { s with spentTodayUsdCents := newSpent, lastUpdatedDay := today })

/-- One `refundBudget` call on an existing, row-locked authorization,
transcribed from `agentPolicyService.ts` lines 385-432: no status check and
no daily reset; `newSpent = Math.max(0, spent_today_usd_cents - amount)` is
persisted together with `updated_at := NOW()`. -/
def refundBudgetStep (today : Nat) (s : AuthState) (amountUsdCents : Int) :
    DeductBudgetResult × AuthState :=
  let newSpent := max 0 (s.spentTodayUsdCents - amountUsdCents)
  (⟨true, newSpent, s.maxDailyUsdCents - newSpent, none⟩,
   { s with spentTodayUsdCents := newSpent, lastUpdatedDay := today })

/-- `deductBudget` over an optional row (`none` models the `SELECT ... FOR
UPDATE` returning no row, the "Authorization not found" branch). -/
def deductBudget (today : Nat) (auth : Option AuthState) (amountUsdCents : Int) :
    DeductBudgetResult × Option AuthState :=
  match auth with
  | none => (⟨false, 0, 0, some .notFound⟩, none)
  | some s =>
    let (r, s') := deductBudgetStep today s amountUsdCents
    (r, some s')

/-- `refundBudget` over an optional row. -/
def refundBudget (today : Nat) (auth : Option AuthState) (amountUsdCents : Int) :
    DeductBudgetResult × Option AuthState :=
  match auth with
  | none => (⟨false, 0, 0, some .notFound⟩, none)
  | some s =>
    let (r, s') := refundBudgetStep today s amountUsdCents
    (r, some s')

/-- Modelled from the spec (section 4.1, design rationale): a refund that
applies "the same daily-reset rule" as `deductBudget` — the code's
`refundBudget` has no such reset; this definition exists only to exhibit
the divergence. -/
def refundBudgetStepSpec (today : Nat) (s : AuthState) (amountUsdCents : Int) :
    DeductBudgetResult × AuthState :=
  let currentSpent := if s.lastUpdatedDay ≠ today then 0 else s.spentTodayUsdCents
  let newSpent := max 0 (currentSpent - amountUsdCents)
  (⟨true, newSpent, s.maxDailyUsdCents - newSpent, none⟩,
   { s with spentTodayUsdCents := newSpent, lastUpdatedDay := today })

/-- The effective spent-today value `deductBudget` computes after its daily
reset (`currentSpent` in the source). -/
def effectiveSpent (today : Nat) (s : AuthState) : Int :=
  if s.lastUpdatedDay ≠ today then 0 else s.spentTodayUsdCents

/-! ## `validateAgentPayment` -/

/-- The fields of the `agent_authorizations` row that
`validateAgentPayment` reads.  The SQL query already filters
`status = 'active'`, so a value of this type is an active row by
construction. -/
structure ActiveAuthorizationRow where
  maxDailyUsdCents : Int
  spentTodayUsdCents : Int
  allowedCategory : String
  deriving DecidableEq

/-- Which branch of `validateAgentPayment` produced the `reason` string. -/
inductive ValidateReason where
  | noActiveAuthorization
  | categoryMismatch
  | insufficientBudget
  | amountNotPositive
  deriving DecidableEq

/-- The `ValidationResult` interface (`allowed` plus the reason branch). -/
structure ValidationResult where
  allowed : Bool
  reason : Option ValidateReason
  deriving DecidableEq

/-- `validateAgentPayment`, transcribed from `agentPolicyService.ts` lines
58-131.  The argument `auth` is the result of the active-authorization
query for the agent's wallet.  Branch order is exactly the source's:
no-authorization, category mismatch, budget check
(`amount > maxDaily - spentToday`), and only then the positivity check
(`amount <= 0`).  The function only reads; it performs no write. -/
def validateAgentPayment (auth : Option ActiveAuthorizationRow) (category : String)
    (amountUsdCents : Int) : ValidationResult :=
  match auth with
  | none => ⟨false, some .noActiveAuthorization⟩
  | some a =>
    if a.allowedCategory ≠ category then
      ⟨false, some .categoryMismatch⟩
    else if a.maxDailyUsdCents - a.spentTodayUsdCents < amountUsdCents then
      ⟨false, some .insufficientBudget⟩
    else if amountUsdCents ≤ 0 then
      ⟨false, some .amountNotPositive⟩
    else
      ⟨true, none⟩

/-! ## Theorems: daily reset, cap check, refund behaviour -/

/-- C6: for an active authorization whose last-updated day is strictly
before today, `deductBudget` ignores the accumulated spent-today: the
budget check succeeds exactly when the amount alone fits the cap, and on
success the persisted spent-today and the reported new spent amount are
0 + amount. -/
theorem deduct_daily_reset (today : Nat) (s : AuthState) (a : Int)
    (hact : s.status = .active) (hday : s.lastUpdatedDay < today) :
    ((deductBudgetStep today s a).1.success = true ↔ a ≤ s.maxDailyUsdCents) ∧
    (a ≤ s.maxDailyUsdCents →
      (deductBudgetStep today s a).2.spentTodayUsdCents = a ∧
      (deductBudgetStep today s a).1.newSpentAmount = a) := by
  have hne : s.lastUpdatedDay ≠ today := Nat.ne_of_lt hday
  by_cases hle : a ≤ s.maxDailyUsdCents
  · have hlt : ¬ s.maxDailyUsdCents < a := by omega
    simp [deductBudgetStep, hact, hne, hlt, hle]
  · have hlt : s.maxDailyUsdCents < a := by omega
    simp [deductBudgetStep, hact, hne, hlt, hle]

/-- C6 witness: authorization with cap 1000 and 900 already spent on day 0;
a deduct of 700 on day 1 succeeds and persists spent-today = 700. -/
theorem deduct_daily_reset_witness :
    (((deductBudgetStep 1 ⟨1000, 900, .active, 0⟩ 700).1.success = true ↔
        (700 : Int) ≤ 1000) ∧
      ((700 : Int) ≤ 1000 →
        (deductBudgetStep 1 ⟨1000, 900, .active, 0⟩ 700).2.spentTodayUsdCents = 700 ∧
        (deductBudgetStep 1 ⟨1000, 900, .active, 0⟩ 700).1.newSpentAmount = 700)) :=
  deduct_daily_reset 1 ⟨1000, 900, .active, 0⟩ 700 rfl (by decide)

/-- C7: for an active authorization, when the effective spent-today (after
the daily reset) plus the amount strictly exceeds the cap, `deductBudget`
fails with the budget-exceeded reason and the row is unchanged (the
transaction rolls back). -/
theorem deduct_budget_exceeded_unchanged (today : Nat) (s : AuthState) (a : Int)
    (hact : s.status = .active)
    (hover : s.maxDailyUsdCents < effectiveSpent today s + a) :
    deductBudgetStep today s a =
      (⟨false, effectiveSpent today s, s.maxDailyUsdCents - effectiveSpent today s,
        some .budgetExceeded⟩, s) := by
  by_cases hne : s.lastUpdatedDay ≠ today
  · simp [effectiveSpent, hne] at hover
    simp [deductBudgetStep, effectiveSpent, hact, hne, hover]
  · simp [effectiveSpent, hne] at hover
    simp [deductBudgetStep, effectiveSpent, hact, hne, hover]

/-- C7 witness (spec Scenario B): cap 5000, spent 385 today; a deduct of
5000 is rejected with the budget-exceeded reason and spent stays 385. -/
theorem deduct_budget_exceeded_witness :
    deductBudgetStep 0 ⟨5000, 385, .active, 0⟩ 5000 =
      (⟨false, effectiveSpent 0 ⟨5000, 385, .active, 0⟩,
        5000 - effectiveSpent 0 ⟨5000, 385, .active, 0⟩,
        some .budgetExceeded⟩, ⟨5000, 385, .active, 0⟩) :=
  deduct_budget_exceeded_unchanged 0 ⟨5000, 385, .active, 0⟩ 5000 rfl (by decide)

/-- C5: the code's `refundBudget` does NOT apply `deductBudget`'s daily
reset.  Authorization last updated on day 0 with spent-today 500; a refund
of 100 on day 1 persists spent-today 400 (resurrecting the previous day's
spend, restamped to today), whereas a refund applying the spec's shared
daily-reset rule would persist 0. -/
theorem refund_ignores_daily_reset :
    (refundBudgetStep 1 ⟨1000, 500, .active, 0⟩ 100).2.spentTodayUsdCents = 400 ∧
    (refundBudgetStep 1 ⟨1000, 500, .active, 0⟩ 100).2.lastUpdatedDay = 1 ∧
    (refundBudgetStepSpec 1 ⟨1000, 500, .active, 0⟩ 100).2.spentTodayUsdCents = 0 ∧
    (400 : Int) ≠ 0 := by
  refine ⟨rfl, rfl, ?_, by decide⟩
  simp [refundBudgetStepSpec]

/-- C10: `refundBudget` never checks status — on every existing row,
whatever its status (active, paused, revoked or expired), it succeeds and
persists max(0, spent − amount); it fails only when the row does not
exist; by contrast `deductBudget` fails with the status reason on every
non-active row, leaving it unchanged. -/
theorem refund_ignores_status (today : Nat) (s : AuthState) (a : Int) :
    (refundBudgetStep today s a).1.success = true ∧
    (refundBudgetStep today s a).2.spentTodayUsdCents =
      max 0 (s.spentTodayUsdCents - a) ∧
    (refundBudget today none a).1 = ⟨false, 0, 0, some .notFound⟩ ∧
    (s.status ≠ .active →
      (deductBudget today (some s) a).1 =
          ⟨false, 0, 0, some (.statusNot s.status)⟩ ∧
        (deductBudget today (some s) a).2 = some s) := by
  refine ⟨rfl, rfl, rfl, fun hs => ?_⟩
  constructor <;> simp [deductBudget, deductBudgetStep, hs]

/-- C10 witness: a revoked authorization with spent 300 — a refund of 100
succeeds and persists 200 while a deduct fails with the status reason —
and an active authorization with the same balances, whose refund succeeds
identically. -/
theorem refund_ignores_status_witness :
    ((refundBudgetStep 0 ⟨1000, 300, .revoked, 0⟩ 100).1.success = true ∧
      (refundBudgetStep 0 ⟨1000, 300, .revoked, 0⟩ 100).2.spentTodayUsdCents =
        max 0 (300 - 100) ∧
      (refundBudget 0 none 100).1 = ⟨false, 0, 0, some .notFound⟩ ∧
      (deductBudget 0 (some ⟨1000, 300, .revoked, 0⟩) 100).1 =
        ⟨false, 0, 0, some (.statusNot .revoked)⟩ ∧
      (deductBudget 0 (some ⟨1000, 300, .revoked, 0⟩) 100).2 =
        some ⟨1000, 300, .revoked, 0⟩) ∧
    (refundBudgetStep 0 ⟨1000, 300, .active, 0⟩ 100).1.success = true ∧
    (refundBudgetStep 0 ⟨1000, 300, .active, 0⟩ 100).2.spentTodayUsdCents =
      max 0 (300 - 100) :=
  ⟨⟨(refund_ignores_status 0 ⟨1000, 300, .revoked, 0⟩ 100).1,
    (refund_ignores_status 0 ⟨1000, 300, .revoked, 0⟩ 100).2.1,
    (refund_ignores_status 0 ⟨1000, 300, .revoked, 0⟩ 100).2.2.1,
    ((refund_ignores_status 0 ⟨1000, 300, .revoked, 0⟩ 100).2.2.2 (by decide)).1,
    ((refund_ignores_status 0 ⟨1000, 300, .revoked, 0⟩ 100).2.2.2 (by decide)).2⟩,
   (refund_ignores_status 0 ⟨1000, 300, .active, 0⟩ 100).1,
   (refund_ignores_status 0 ⟨1000, 300, .active, 0⟩ 100).2.1⟩

/-! ## Theorems: `validateAgentPayment` on non-positive amounts -/

/-- C9 counterexample: an active "utilities" authorization with cap 100 and
spent-today 200 (spent exceeds cap, so remaining is negative); validating a
matching-category payment of amount 0 returns the insufficient-budget
reason, not the amount-must-be-positive reason — the budget check precedes
the positivity check in the source. -/
theorem validate_nonpositive_reason_cex :
    (validateAgentPayment (some ⟨100, 200, "utilities"⟩) "utilities" 0).reason =
      some .insufficientBudget ∧
    some ValidateReason.insufficientBudget ≠ some .amountNotPositive := by
  constructor
  · rfl
  · decide

/-- C9 amended: with an active matching-category authorization and amount
≤ 0, `validateAgentPayment` returns not-allowed, with the
amount-must-be-positive reason exactly when the amount does not exceed
cap − spent-today and the insufficient-budget reason otherwise; the
function performs no write in any case. -/
theorem validate_nonpositive_not_allowed (a : ActiveAuthorizationRow)
    (category : String) (amount : Int)
    (hcat : a.allowedCategory = category) (hamt : amount ≤ 0) :
    (validateAgentPayment (some a) category amount).allowed = false ∧
    (validateAgentPayment (some a) category amount).reason =
      some (if a.maxDailyUsdCents - a.spentTodayUsdCents < amount
            then ValidateReason.insufficientBudget
            else ValidateReason.amountNotPositive) := by
  by_cases h : a.maxDailyUsdCents - a.spentTodayUsdCents < amount
  · simp [validateAgentPayment, hcat, h]
  · simp [validateAgentPayment, hcat, h, hamt]

/-- C9 amended witness: active matching authorization, cap 100, spent 0,
amount 0 → not allowed with the amount-must-be-positive reason. -/
theorem validate_nonpositive_not_allowed_witness :
    (validateAgentPayment (some ⟨100, 0, "food"⟩) "food" 0).allowed = false ∧
    (validateAgentPayment (some ⟨100, 0, "food"⟩) "food" 0).reason =
      some (if (100 : Int) - 0 < 0
            then ValidateReason.insufficientBudget
            else ValidateReason.amountNotPositive) :=
  validate_nonpositive_not_allowed ⟨100, 0, "food"⟩ "food" 0 rfl (by decide)

/-! ## Sequences of deducts and refunds (budget monotonicity, C1) -/

/-- One ledger operation on an authorization. -/
inductive BudgetOp where
  | deduct (amountUsdCents : Int)
  | refund (amountUsdCents : Int)
  deriving DecidableEq

/-- The authorization row after one ledger operation. -/
def applyOp (today : Nat) (s : AuthState) : BudgetOp → AuthState
  | .deduct a => (deductBudgetStep today s a).2
  | .refund a => (refundBudgetStep today s a).2

/-- The authorization row after a sequence of ledger operations, all
executed on the calendar day `today`. -/
def runOps (today : Nat) (s : AuthState) : List BudgetOp → AuthState
  | [] => s
  | op :: rest => runOps today (applyOp today s op) rest

/-- Sum of the amounts of the deducts that succeed at their point in the
sequence. -/
def succDeductSum (today : Nat) (s : AuthState) : List BudgetOp → Int
  | [] => 0
  | .deduct a :: rest =>
      (if (deductBudgetStep today s a).1.success then a else 0) +
        succDeductSum today (applyOp today s (.deduct a)) rest
  | .refund a :: rest => succDeductSum today (applyOp today s (.refund a)) rest

/-- Sum of the amounts of all refunds in the sequence. -/
def refundSum : List BudgetOp → Int
  | [] => 0
  | .deduct _ :: rest => refundSum rest
  | .refund a :: rest => a + refundSum rest

/-- All operation amounts are nonnegative. -/
def opsNonneg : List BudgetOp → Bool
  | [] => true
  | .deduct a :: rest => decide (0 ≤ a) && opsNonneg rest
  | .refund a :: rest => decide (0 ≤ a) && opsNonneg rest

/-- No refund in the sequence exceeds the spent-today at its point (the
compensation discipline: refunds only give back amounts previously
deducted). -/
def noOverRefund (today : Nat) (s : AuthState) : List BudgetOp → Bool
  | [] => true
  | .deduct a :: rest => noOverRefund today (applyOp today s (.deduct a)) rest
  | .refund a :: rest =>
      decide (a ≤ s.spentTodayUsdCents) &&
        noOverRefund today (applyOp today s (.refund a)) rest

lemma deductBudgetStep_fail (today : Nat) (s : AuthState) (a : Int)
    (hact : s.status = .active) (hday : s.lastUpdatedDay = today)
    (hov : s.maxDailyUsdCents < s.spentTodayUsdCents + a) :
    deductBudgetStep today s a =
      (⟨false, s.spentTodayUsdCents, s.maxDailyUsdCents - s.spentTodayUsdCents,
        some .budgetExceeded⟩, s) := by
  simp [deductBudgetStep, hact, hday, hov]

lemma deductBudgetStep_succ (today : Nat) (s : AuthState) (a : Int)
    (hact : s.status = .active) (hday : s.lastUpdatedDay = today)
    (hov : ¬ s.maxDailyUsdCents < s.spentTodayUsdCents + a) :
    deductBudgetStep today s a =
      (⟨true, s.spentTodayUsdCents + a,
        s.maxDailyUsdCents - (s.spentTodayUsdCents + a), none⟩,
       { s with spentTodayUsdCents := s.spentTodayUsdCents + a,
                lastUpdatedDay := today }) := by
  simp [deductBudgetStep, hact, hday, hov]

lemma runOps_invariant (today : Nat) (ops : List BudgetOp) :
    ∀ s : AuthState, s.status = .active → s.lastUpdatedDay = today →
      0 ≤ s.spentTodayUsdCents → s.spentTodayUsdCents ≤ s.maxDailyUsdCents →
      opsNonneg ops = true → noOverRefund today s ops = true →
      (runOps today s ops).spentTodayUsdCents =
          s.spentTodayUsdCents + succDeductSum today s ops - refundSum ops ∧
        0 ≤ (runOps today s ops).spentTodayUsdCents ∧
        (runOps today s ops).maxDailyUsdCents = s.maxDailyUsdCents ∧
        (runOps today s ops).spentTodayUsdCents ≤ s.maxDailyUsdCents := by
  induction ops with
  | nil =>
    intro s hact hday h0 hcap _ _
    simpa [runOps, succDeductSum, refundSum] using ⟨h0, hcap⟩
  | cons op rest ih =>
    intro s hact hday h0 hcap hnn hnr
    cases op with
    | deduct a =>
      simp only [opsNonneg, Bool.and_eq_true, decide_eq_true_eq] at hnn
      simp only [noOverRefund] at hnr
      by_cases hov : s.maxDailyUsdCents < s.spentTodayUsdCents + a
      · have hstep := deductBudgetStep_fail today s a hact hday hov
        have hif : (if (deductBudgetStep today s a).1.success = true
            then a else (0 : Int)) = 0 := by
          rw [hstep]; simp
        have happ : applyOp today s (.deduct a) = s := by simp [applyOp, hstep]
        rw [happ] at hnr
        obtain ⟨e, pos, maxeq, le⟩ := ih s hact hday h0 hcap hnn.2 hnr
        simp only [runOps, succDeductSum, refundSum, happ, hif]
        exact ⟨by omega, pos, maxeq, le⟩
      · have hstep := deductBudgetStep_succ today s a hact hday hov
        have hif : (if (deductBudgetStep today s a).1.success = true
            then a else (0 : Int)) = a := by
          rw [hstep]; simp
        have happ : applyOp today s (.deduct a) =
            { s with spentTodayUsdCents := s.spentTodayUsdCents + a,
                     lastUpdatedDay := today } := by
          simp [applyOp, hstep]
        rw [happ] at hnr
        obtain ⟨e, pos, maxeq, le⟩ :=
          ih { s with spentTodayUsdCents := s.spentTodayUsdCents + a,
                      lastUpdatedDay := today }
            hact rfl (by simp; omega) (by simp; omega) hnn.2 hnr
        have e' : (runOps today
              { s with spentTodayUsdCents := s.spentTodayUsdCents + a,
                       lastUpdatedDay := today } rest).spentTodayUsdCents =
            s.spentTodayUsdCents + a +
              succDeductSum today
                { s with spentTodayUsdCents := s.spentTodayUsdCents + a,
                         lastUpdatedDay := today } rest -
              refundSum rest := e
        have maxeq' : (runOps today
              { s with spentTodayUsdCents := s.spentTodayUsdCents + a,
                       lastUpdatedDay := today } rest).maxDailyUsdCents =
            s.maxDailyUsdCents := maxeq
        have le' : (runOps today
              { s with spentTodayUsdCents := s.spentTodayUsdCents + a,
                       lastUpdatedDay := today } rest).spentTodayUsdCents ≤
            s.maxDailyUsdCents := le
        simp only [runOps, succDeductSum, refundSum, happ, hif]
        exact ⟨by omega, pos, maxeq', le'⟩
    | refund a =>
      simp only [opsNonneg, Bool.and_eq_true, decide_eq_true_eq] at hnn
      simp only [noOverRefund, Bool.and_eq_true, decide_eq_true_eq] at hnr
      have hmax : max 0 (s.spentTodayUsdCents - a) = s.spentTodayUsdCents - a :=
        max_eq_right (by omega)
      have happ : applyOp today s (.refund a) =
          { s with spentTodayUsdCents := s.spentTodayUsdCents - a,
                   lastUpdatedDay := today } := by
        simp [applyOp, refundBudgetStep, hmax]
      rw [happ] at hnr
      obtain ⟨e, pos, maxeq, le⟩ :=
        ih { s with spentTodayUsdCents := s.spentTodayUsdCents - a,
                    lastUpdatedDay := today }
          hact rfl (by simp; omega) (by simp; omega) hnn.2 hnr.2
      have e' : (runOps today
            { s with spentTodayUsdCents := s.spentTodayUsdCents - a,
                     lastUpdatedDay := today } rest).spentTodayUsdCents =
          s.spentTodayUsdCents - a +
            succDeductSum today
              { s with spentTodayUsdCents := s.spentTodayUsdCents - a,
                       lastUpdatedDay := today } rest -
            refundSum rest := e
      have maxeq' : (runOps today
            { s with spentTodayUsdCents := s.spentTodayUsdCents - a,
                     lastUpdatedDay := today } rest).maxDailyUsdCents =
          s.maxDailyUsdCents := maxeq
      have le' : (runOps today
            { s with spentTodayUsdCents := s.spentTodayUsdCents - a,
                     lastUpdatedDay := today } rest).spentTodayUsdCents ≤
          s.maxDailyUsdCents := le
      simp only [runOps, succDeductSum, refundSum, happ]
      exact ⟨by omega, pos, maxeq', le'⟩

lemma opsNonneg_take (n : Nat) :
    ∀ ops : List BudgetOp, opsNonneg ops = true → opsNonneg (ops.take n) = true := by
  induction n with
  | zero => intro ops _; rfl
  | succ n ih =>
    intro ops h
    cases ops with
    | nil => simpa using h
    | cons op rest =>
      cases op with
      | deduct a =>
        simp only [List.take_succ_cons, opsNonneg, Bool.and_eq_true] at h ⊢
        exact ⟨h.1, ih rest h.2⟩
      | refund a =>
        simp only [List.take_succ_cons, opsNonneg, Bool.and_eq_true] at h ⊢
        exact ⟨h.1, ih rest h.2⟩

lemma noOverRefund_take (today : Nat) (n : Nat) :
    ∀ (ops : List BudgetOp) (s : AuthState), noOverRefund today s ops = true →
      noOverRefund today s (ops.take n) = true := by
  induction n with
  | zero => intro ops s _; rfl
  | succ n ih =>
    intro ops s h
    cases ops with
    | nil => simpa using h
    | cons op rest =>
      cases op with
      | deduct a =>
        simp only [List.take_succ_cons, noOverRefund] at h ⊢
        exact ih rest _ h
      | refund a =>
        simp only [List.take_succ_cons, noOverRefund, Bool.and_eq_true] at h ⊢
        exact ⟨h.1, ih rest _ h.2⟩

/-- C1 counterexample: cap 10, ops = deduct 5, refund 10, deduct 5, all on
one day from spent 0.  Both deducts succeed and the refund is 10, so the
claimed formula clamp(5 + 5 - 10) gives 0, but the persisted spent-today
is 5: the refund clamps at 0 at its own step, which the end-of-sequence
formula loses. -/
theorem budget_sequence_clamped_cex :
    (runOps 0 ⟨10, 0, .active, 0⟩
        [.deduct 5, .refund 10, .deduct 5]).spentTodayUsdCents = 5 ∧
    max 0 (min 10
      (succDeductSum 0 ⟨10, 0, .active, 0⟩ [.deduct 5, .refund 10, .deduct 5] -
        refundSum [.deduct 5, .refund 10, .deduct 5])) = 0 ∧
    (5 : Int) ≠ 0 := by
  refine ⟨?_, ?_, by decide⟩ <;> decide

/-- C1 amended: for sequences of deduct/refund calls on one active
authorization within one calendar day from spent-today 0, with nonnegative
amounts and no refund exceeding the spent-today at its point, the persisted
spent-today equals the sum of the successful deducts minus the sum of the
refunds, clamped to [0, cap]; and after every prefix of the sequence
spent-today is at most the cap. -/
theorem budget_sequence_clamped (today : Nat) (cap : Int) (ops : List BudgetOp)
    (hcap : 0 ≤ cap)
    (hnn : opsNonneg ops = true)
    (hnr : noOverRefund today ⟨cap, 0, .active, today⟩ ops = true) :
    (runOps today ⟨cap, 0, .active, today⟩ ops).spentTodayUsdCents =
      max 0 (min cap
        (succDeductSum today ⟨cap, 0, .active, today⟩ ops - refundSum ops)) ∧
    ∀ n : Nat,
      (runOps today ⟨cap, 0, .active, today⟩ (ops.take n)).spentTodayUsdCents ≤
        cap := by
  obtain ⟨e, pos, maxeq, le⟩ :=
    runOps_invariant today ops ⟨cap, 0, .active, today⟩ rfl rfl le_rfl hcap hnn hnr
  constructor
  · simp only at e pos maxeq le
    omega
  · intro n
    obtain ⟨_, _, _, le'⟩ :=
      runOps_invariant today (ops.take n) ⟨cap, 0, .active, today⟩ rfl rfl le_rfl
        hcap (opsNonneg_take n ops hnn) (noOverRefund_take today n ops _ hnr)
    simpa using le'

/-- C1 amended witness: cap 10, ops = deduct 3, refund 1 → spent 2, the
clamped sum, and every prefix stays at most 10. -/
theorem budget_sequence_clamped_witness :
    (runOps 0 ⟨10, 0, .active, 0⟩ [.deduct 3, .refund 1]).spentTodayUsdCents =
      max 0 (min 10
        (succDeductSum 0 ⟨10, 0, .active, 0⟩ [.deduct 3, .refund 1] -
          refundSum [.deduct 3, .refund 1])) ∧
    ∀ n : Nat,
      (runOps 0 ⟨10, 0, .active, 0⟩
        (([BudgetOp.deduct 3, .refund 1]).take n)).spentTodayUsdCents ≤ 10 :=
  budget_sequence_clamped 0 10 [.deduct 3, .refund 1] (by decide) (by decide)
    (by decide)

/-! ## Funding confirmation webhook: `pretiumWebhook.ts` and `redis.ts` -/

/-- `escrow_funding_intents.status`. -/
inductive IntentStatus where
  | pending
  | confirmed
  | failed
  | timeout
  deriving DecidableEq

/-- `onramp_transactions.status`. -/
inductive OnrampStatus where
  | pending
  | confirmed
  | failed
  deriving DecidableEq

/-- `escrows.status`. -/
inductive EscrowStatus where
  | pendingDeposit
  | active
  | depleted
  | expired
  deriving DecidableEq

/-- An `escrow_funding_intents` row, restricted to the columns the webhook
handler reads or writes.  `categories` is the parsed category allocation
list stored with the intent (name, allocated minor units). -/
structure FundingIntent where
  intentId : Nat
  pretiumTransactionCode : String
  expectedUsdcCents : Int
  totalAmountUsdCents : Int
  categories : List (String × Int)
  status : IntentStatus
  escrowId : Option Nat
  deriving DecidableEq

/-- An `onramp_transactions` row (legacy direct-escrow path). -/
structure OnrampTransaction where
  onrampTransactionId : Nat
  pretiumTransactionCode : String
  expectedUsdcCents : Int
  status : OnrampStatus
  escrowId : Nat
  deriving DecidableEq

/-- An `escrows` row, restricted to the columns the handler touches. -/
structure Escrow where
  escrowId : Nat
  totalAmountUsdCents : Int
  remainingBalanceUsdCents : Int
  totalSpentUsdCents : Int
  status : EscrowStatus
  deriving DecidableEq

/-- A `spending_categories` row as inserted by the handler. -/
structure SpendingCategory where
  escrowId : Nat
  categoryName : String
  allocatedAmountUsdCents : Int
  spentAmountUsdCents : Int
  remainingAmountUsdCents : Int
  deriving DecidableEq

/-- The tables the webhook handler's transaction touches. -/
structure WebhookDb where
  intents : List FundingIntent
  onramps : List OnrampTransaction
  escrows : List Escrow
  categories : List SpendingCategory
  nextEscrowId : Nat
  deriving DecidableEq

/-- The `PretiumWebhookPayload` as the handler consumes it: `success` is
`status == 'success'` and `receivedUsdCents` is the confirmed received
amount in minor units (`Math.round(Number(amount_usdc) * 100)` in the
source). -/
structure PretiumWebhookPayload where
  transactionCode : String
  success : Bool
  receivedUsdCents : Int
  deriving DecidableEq

/-- The error thrown (and turned into a 400 response) by the handler. -/
inductive WebhookError where
  | missingTransactionCode
  | underfundedIntent
  | underfundedEscrow
  | unknownTransactionCode
  deriving DecidableEq

/-- The HTTP response of the webhook route. -/
inductive WebhookResponse where
  | ok200
  | alreadyProcessed200
  | error400 (err : WebhookError)
  deriving DecidableEq

/-- The inner webhook handler (the callback passed to `withIdempotency` in
`pretiumWebhook.ts` lines 21-174), as one all-or-nothing unit of work: a
thrown error rolls the transaction back, so those branches return the
input database unchanged together with the 400 response built in the
catch block. -/
def pretiumWebhookHandler (db : WebhookDb) (p : PretiumWebhookPayload) :
    WebhookResponse × WebhookDb :=
  match db.intents.find? (fun i => i.pretiumTransactionCode == p.transactionCode) with
  | some intent =>
    if p.success = false then
      (.ok200,
       { db with intents := db.intents.map (fun i =>
           if i.intentId == intent.intentId then { i with status := .failed } else i) })
    else if p.receivedUsdCents < intent.expectedUsdcCents then
      (.error400 .underfundedIntent, db)
    else
      (.ok200,
       { db with
         escrows := db.escrows ++
           [⟨db.nextEscrowId, intent.totalAmountUsdCents,
             intent.totalAmountUsdCents, 0, .active⟩],
         categories := db.categories ++
           intent.categories.map (fun c => ⟨db.nextEscrowId, c.1, c.2, 0, c.2⟩),
         intents := db.intents.map (fun i =>
           if i.intentId == intent.intentId then
             { i with status := .confirmed, escrowId := some db.nextEscrowId }
           else i),
         nextEscrowId := db.nextEscrowId + 1 })
  | none =>
    match db.onramps.find? (fun o => o.pretiumTransactionCode == p.transactionCode) with
    | none => (.error400 .unknownTransactionCode, db)
    | some onramp =>
      if p.success = false then
        (.ok200,
         { db with onramps := db.onramps.map (fun o =>
             if o.onrampTransactionId == onramp.onrampTransactionId then
               { o with status := .failed }
             else o) })
      else if p.receivedUsdCents < onramp.expectedUsdcCents then
        (.error400 .underfundedEscrow, db)
      else
        (.ok200,
         { db with
           onramps := db.onramps.map (fun o =>
             if o.onrampTransactionId == onramp.onrampTransactionId then
               { o with status := .confirmed }
             else o),
           escrows := db.escrows.map (fun e =>
             if e.escrowId == onramp.escrowId && e.status == EscrowStatus.pendingDeposit
             then { e with status := .active } else e) })

/-- The Redis key `webhook:(provider):(code)` of `withIdempotency`. -/
def idempotencyKey (provider : String) (transactionCode : String) : String :=
  "webhook:" ++ provider ++ ":" ++ transactionCode

/-- Outcome of one delivery to the webhook route: the HTTP response, the
idempotency store contents, the database, and whether the inner handler
was invoked. -/
structure WebhookRouteOutcome where
  response : WebhookResponse
  idempotencyKeys : List String
  db : WebhookDb
  handlerRan : Bool
  deriving DecidableEq

/-- The full `POST /webhooks/pretium` route: the missing-code guard, then
`withIdempotency` (`redis.ts` lines 51-79) around `pretiumWebhookHandler`.
`redisAvailable = false` covers both a missing `REDIS_URL` and a Redis
error, in which cases the gate fails open and runs the handler; otherwise
an existing key short-circuits with the canned 200, and a fresh key is set
(24-hour expiry elided) before the handler runs. -/
def pretiumWebhookRoute (redisAvailable : Bool) (store : List String)
    (db : WebhookDb) (p : PretiumWebhookPayload) : WebhookRouteOutcome :=
  if p.transactionCode = "" then
    ⟨.error400 .missingTransactionCode, store, db, false⟩
  else if redisAvailable = false then
    ⟨(pretiumWebhookHandler db p).1, store, (pretiumWebhookHandler db p).2, true⟩
  else if store.contains (idempotencyKey "pretium" p.transactionCode) then
    ⟨.alreadyProcessed200, store, db, false⟩
  else
    ⟨(pretiumWebhookHandler db p).1,
     idempotencyKey "pretium" p.transactionCode :: store,
     (pretiumWebhookHandler db p).2, true⟩

/-- Two consecutive deliveries of the same payload: the route applied
twice, threading the idempotency store and the database. -/
def secondDelivery (redisAvailable : Bool) (store : List String)
    (db : WebhookDb) (p : PretiumWebhookPayload) : WebhookRouteOutcome :=
  pretiumWebhookRoute redisAvailable
    (pretiumWebhookRoute redisAvailable store db p).idempotencyKeys
    (pretiumWebhookRoute redisAvailable store db p).db p

lemma pretiumWebhookHandler_confirm (db : WebhookDb) (p : PretiumWebhookPayload)
    (intent : FundingIntent)
    (hfind : db.intents.find?
      (fun i => i.pretiumTransactionCode == p.transactionCode) = some intent)
    (hsucc : p.success = true)
    (hfund : intent.expectedUsdcCents ≤ p.receivedUsdCents) :
    (pretiumWebhookHandler db p).1 = .ok200 ∧
    (pretiumWebhookHandler db p).2.escrows =
      db.escrows ++ [⟨db.nextEscrowId, intent.totalAmountUsdCents,
        intent.totalAmountUsdCents, 0, .active⟩] := by
  have hnl : ¬ p.receivedUsdCents < intent.expectedUsdcCents := not_lt.mpr hfund
  constructor <;> simp [pretiumWebhookHandler, hfind, hsucc, hnl]

/-- C2: with the idempotency store available, a first delivery of a fully
funded success confirmation (nonempty transaction code, key not yet
present, matching funding intent) runs the handler, returns 200, and
creates exactly one escrow row; the second delivery of the same payload
does not run the handler, performs no database side effect, and returns
the canned 200 already-processed response. -/
theorem webhook_idempotent_second_delivery (store : List String) (db : WebhookDb)
    (p : PretiumWebhookPayload) (intent : FundingIntent)
    (hcode : p.transactionCode ≠ "")
    (hnew : store.contains (idempotencyKey "pretium" p.transactionCode) = false)
    (hfind : db.intents.find?
      (fun i => i.pretiumTransactionCode == p.transactionCode) = some intent)
    (hsucc : p.success = true)
    (hfund : intent.expectedUsdcCents ≤ p.receivedUsdCents) :
    (pretiumWebhookRoute true store db p).response = .ok200 ∧
    (pretiumWebhookRoute true store db p).handlerRan = true ∧
    (pretiumWebhookRoute true store db p).db.escrows.length =
      db.escrows.length + 1 ∧
    (secondDelivery true store db p).response = .alreadyProcessed200 ∧
    (secondDelivery true store db p).handlerRan = false ∧
    (secondDelivery true store db p).db = (pretiumWebhookRoute true store db p).db := by
  obtain ⟨h1, hesc⟩ := pretiumWebhookHandler_confirm db p intent hfind hsucc hfund
  have hnotmem : idempotencyKey "pretium" p.transactionCode ∉ store := by
    simpa using hnew
  have hfirst : pretiumWebhookRoute true store db p =
      ⟨(pretiumWebhookHandler db p).1,
        idempotencyKey "pretium" p.transactionCode :: store,
        (pretiumWebhookHandler db p).2, true⟩ := by
    simp [pretiumWebhookRoute, hcode, hnotmem]
  have hsecond : secondDelivery true store db p =
      ⟨.alreadyProcessed200,
        idempotencyKey "pretium" p.transactionCode :: store,
        (pretiumWebhookHandler db p).2, false⟩ := by
    rw [secondDelivery, hfirst]
    simp [pretiumWebhookRoute, hcode]
  rw [hfirst, hsecond]
  refine ⟨h1, rfl, ?_, rfl, rfl, rfl⟩
  simp [hesc]

/-- C2 witness: a pending intent with code "X" expecting 10000; the payload
reports success with 10000 received; delivered twice from an empty store. -/
theorem webhook_idempotent_second_delivery_witness :
    (pretiumWebhookRoute true []
        ⟨[⟨1, "X", 10000, 10000, [("food", 10000)], .pending, none⟩], [], [], [], 1⟩
        ⟨"X", true, 10000⟩).response = .ok200 ∧
    (pretiumWebhookRoute true []
        ⟨[⟨1, "X", 10000, 10000, [("food", 10000)], .pending, none⟩], [], [], [], 1⟩
        ⟨"X", true, 10000⟩).handlerRan = true ∧
    (pretiumWebhookRoute true []
        ⟨[⟨1, "X", 10000, 10000, [("food", 10000)], .pending, none⟩], [], [], [], 1⟩
        ⟨"X", true, 10000⟩).db.escrows.length =
      ([] : List Escrow).length + 1 ∧
    (secondDelivery true []
        ⟨[⟨1, "X", 10000, 10000, [("food", 10000)], .pending, none⟩], [], [], [], 1⟩
        ⟨"X", true, 10000⟩).response = .alreadyProcessed200 ∧
    (secondDelivery true []
        ⟨[⟨1, "X", 10000, 10000, [("food", 10000)], .pending, none⟩], [], [], [], 1⟩
        ⟨"X", true, 10000⟩).handlerRan = false ∧
    (secondDelivery true []
        ⟨[⟨1, "X", 10000, 10000, [("food", 10000)], .pending, none⟩], [], [], [], 1⟩
        ⟨"X", true, 10000⟩).db =
      (pretiumWebhookRoute true []
        ⟨[⟨1, "X", 10000, 10000, [("food", 10000)], .pending, none⟩], [], [], [], 1⟩
        ⟨"X", true, 10000⟩).db :=
  webhook_idempotent_second_delivery []
    ⟨[⟨1, "X", 10000, 10000, [("food", 10000)], .pending, none⟩], [], [], [], 1⟩
    ⟨"X", true, 10000⟩ ⟨1, "X", 10000, 10000, [("food", 10000)], .pending, none⟩
    (by decide) rfl rfl rfl (by decide)

/-- C3: a success payload whose confirmed received amount is strictly below
the matched intent's expected amount makes the handler throw, so the unit
of work rolls back: the response is the 400 underfunded error and the
database — escrows, categories, and the intent's status — is exactly as
before. -/
theorem underfunded_intent_rejected (db : WebhookDb) (p : PretiumWebhookPayload)
    (intent : FundingIntent)
    (hfind : db.intents.find?
      (fun i => i.pretiumTransactionCode == p.transactionCode) = some intent)
    (hsucc : p.success = true)
    (hunder : p.receivedUsdCents < intent.expectedUsdcCents) :
    pretiumWebhookHandler db p = (.error400 .underfundedIntent, db) := by
  simp [pretiumWebhookHandler, hfind, hsucc, hunder]

/-- C3 witness (spec Scenario D): the intent expects 10000 minor units and
the webhook reports 9999 received: 400 error, intent still pending, no
escrow row. -/
theorem underfunded_intent_rejected_witness :
    pretiumWebhookHandler
        ⟨[⟨1, "TX1", 10000, 10000, [("food", 10000)], .pending, none⟩], [], [], [], 1⟩
        ⟨"TX1", true, 9999⟩ =
      (.error400 .underfundedIntent,
       ⟨[⟨1, "TX1", 10000, 10000, [("food", 10000)], .pending, none⟩], [], [], [], 1⟩) :=
  underfunded_intent_rejected
    ⟨[⟨1, "TX1", 10000, 10000, [("food", 10000)], .pending, none⟩], [], [], [], 1⟩
    ⟨"TX1", true, 9999⟩ ⟨1, "TX1", 10000, 10000, [("food", 10000)], .pending, none⟩
    rfl rfl (by decide)

/-! ## x402 spend route: steps 5-7 of `agentMerchantRoutes` -/

/-- `agent_transactions.status`. -/
inductive TxStatus where
  | pending
  | authorized
  | settling
  | completed
  | failed
  | rejected
  deriving DecidableEq

/-- An `agent_transactions` row, restricted to the columns the spend route
writes. -/
structure AgentTransaction where
  txId : Nat
  amountUsdCents : Int
  status : TxStatus
  mpesaReceipt : Option String
  deriving DecidableEq

/-- `updateTransactionStatus` (`agentPolicyService.ts` lines 271-303): set
the row's status, and the M-Pesa receipt only when one is supplied
(`completed_at` timestamp elided). -/
def updateTransactionStatus (txs : List AgentTransaction) (txId : Nat)
    (status : TxStatus) (mpesaReceipt : Option String) : List AgentTransaction :=
  txs.map fun t =>
    if t.txId == txId then
      { t with
        status := status,
        mpesaReceipt := match mpesaReceipt with
          | some r => some r
          | none => t.mpesaReceipt }
    else t

/-- The state the spend route mutates: the agent's authorization row and
the audit-log table. -/
structure SpendState where
  auth : AuthState
  transactions : List AgentTransaction
  nextTxId : Nat
  deriving DecidableEq

/-- The HTTP response of steps 5-8 of the order route. -/
inductive SpendResponse where
  | insufficientBudget403 (reason : Option FailReason)
  | loggingFailed500
  | disbursementFailed500 (txId : Nat)
  | success200 (txId : Nat) (mpesaTransactionCode : String)
  deriving DecidableEq

/-- Steps 5-8 of `POST /merchant/:merchantId/order` (the unnamed route
file, lines 210-362), after merchant/item lookup, header parsing and
`validateAgentPayment` have passed: deduct the budget; on success log a
pending transaction (`logOk` models whether that INSERT succeeds); then
call `disburseKes` — `disburseResult` is `some code` for a successful
synchronous response carrying `transaction_code = code` and `none` for a
thrown error.  On dispatch failure the route marks the transaction failed
and refunds the deducted amount before returning the 500; on logging
failure it refunds and returns the 500 with no row logged; on success it
marks the transaction settling with the receipt code. -/
def spendFlow (today : Nat) (st : SpendState) (amountUsdCents : Int)
    (logOk : Bool) (disburseResult : Option String) : SpendState × SpendResponse :=
  if (deductBudgetStep today st.auth amountUsdCents).1.success then
    let auth1 := (deductBudgetStep today st.auth amountUsdCents).2
    if logOk then
      let txs1 := st.transactions ++ [⟨st.nextTxId, amountUsdCents, .pending, none⟩]
      match disburseResult with
      | some code =>
        (⟨auth1, updateTransactionStatus txs1 st.nextTxId .settling (some code),
          st.nextTxId + 1⟩,
         .success200 st.nextTxId code)
      | none =>
        (⟨(refundBudgetStep today auth1 amountUsdCents).2,
          updateTransactionStatus txs1 st.nextTxId .failed none,
          st.nextTxId + 1⟩,
         .disbursementFailed500 st.nextTxId)
    else
      (⟨(refundBudgetStep today auth1 amountUsdCents).2, st.transactions,
        st.nextTxId⟩,
       .loggingFailed500)
  else
    (st, .insufficientBudget403 (deductBudgetStep today st.auth amountUsdCents).1.reason)

/-- C4: when the deduct of amount A succeeds (active authorization, same
calendar day, A fits the remaining budget), the pending row is logged, and
the disbursement call throws, the route marks the logged transaction
failed and refunds the same amount A before returning the 500, so
spent-today is back at its pre-deduct value. -/
theorem dispatch_failure_compensation (today : Nat) (st : SpendState) (a : Int)
    (hact : st.auth.status = .active) (hday : st.auth.lastUpdatedDay = today)
    (h0 : 0 ≤ st.auth.spentTodayUsdCents)
    (hfit : st.auth.spentTodayUsdCents + a ≤ st.auth.maxDailyUsdCents) :
    (spendFlow today st a true none).1.auth.spentTodayUsdCents =
        st.auth.spentTodayUsdCents ∧
    (spendFlow today st a true none).1.transactions.getLast? =
        some ⟨st.nextTxId, a, .failed, none⟩ ∧
    (spendFlow today st a true none).2 = .disbursementFailed500 st.nextTxId := by
  have hov : ¬ st.auth.maxDailyUsdCents < st.auth.spentTodayUsdCents + a :=
    not_lt.mpr hfit
  have hstep := deductBudgetStep_succ today st.auth a hact hday hov
  have hmax : max 0 (st.auth.spentTodayUsdCents + a - a) =
      st.auth.spentTodayUsdCents := by
    rw [add_sub_cancel_right]
    exact max_eq_right h0
  refine ⟨?_, ?_, ?_⟩ <;>
    simp [spendFlow, hstep, refundBudgetStep, updateTransactionStatus, hmax, h0,
      List.getLast?_concat]

/-- C4 witness: cap 5000, spent 385, deduct 500, logging succeeds,
disbursement throws → spent back to 385, last audit row failed, 500
response. -/
theorem dispatch_failure_compensation_witness :
    (spendFlow 0 ⟨⟨5000, 385, .active, 0⟩, [], 7⟩ 500 true none).1.auth.spentTodayUsdCents =
        385 ∧
    (spendFlow 0 ⟨⟨5000, 385, .active, 0⟩, [], 7⟩ 500 true none).1.transactions.getLast? =
        some ⟨7, 500, .failed, none⟩ ∧
    (spendFlow 0 ⟨⟨5000, 385, .active, 0⟩, [], 7⟩ 500 true none).2 =
        .disbursementFailed500 7 :=
  dispatch_failure_compensation 0 ⟨⟨5000, 385, .active, 0⟩, [], 7⟩ 500 rfl rfl
    (by decide) (by decide)

/-- C8 counterexample: a successful synchronous disbursement (code "SJ12")
leaves the audit row at status settling, not completed — the route's
success path calls `updateTransactionStatus(txId, 'settling', code)` and
nothing in the discovered code ever advances an agent transaction to
completed. -/
theorem sync_settlement_not_completed_cex :
    (spendFlow 0 ⟨⟨5000, 0, .active, 0⟩, [], 1⟩ 385 true
        (some "SJ12")).1.transactions = [⟨1, 385, .settling, some "SJ12"⟩] ∧
    TxStatus.settling ≠ .completed := by
  constructor
  · rfl
  · decide

/-- C8 amended: in the synchronous settlement path, a spend whose
disbursement call returns successfully has its transaction status set to
settling with the external transaction code stored as the receipt (not to
the terminal status completed), and the route returns the success
response. -/
theorem sync_settlement_sets_settling (today : Nat) (st : SpendState) (a : Int)
    (code : String)
    (hact : st.auth.status = .active) (hday : st.auth.lastUpdatedDay = today)
    (hfit : st.auth.spentTodayUsdCents + a ≤ st.auth.maxDailyUsdCents) :
    (spendFlow today st a true (some code)).1.transactions.getLast? =
        some ⟨st.nextTxId, a, .settling, some code⟩ ∧
    (spendFlow today st a true (some code)).2 = .success200 st.nextTxId code := by
  have hov : ¬ st.auth.maxDailyUsdCents < st.auth.spentTodayUsdCents + a :=
    not_lt.mpr hfit
  have hstep := deductBudgetStep_succ today st.auth a hact hday hov
  refine ⟨?_, ?_⟩ <;>
    simp [spendFlow, hstep, updateTransactionStatus, List.getLast?_concat]

/-- C8 amended witness: cap 5000, spent 0, spend 385 with receipt "SJ12" →
last audit row is settling with the receipt and the response is the 200
success. -/
theorem sync_settlement_sets_settling_witness :
    (spendFlow 0 ⟨⟨5000, 0, .active, 0⟩, [], 1⟩ 385 true
        (some "SJ12")).1.transactions.getLast? =
      some ⟨1, 385, .settling, some "SJ12"⟩ ∧
    (spendFlow 0 ⟨⟨5000, 0, .active, 0⟩, [], 1⟩ 385 true (some "SJ12")).2 =
      .success200 1 "SJ12" :=
  sync_settlement_sets_settling 0 ⟨⟨5000, 0, .active, 0⟩, [], 1⟩ 385 "SJ12" rfl rfl
    (by decide)
